import Mathlib

/-!
Shallow embedding of the nau-s3-sync program (src/src/main.go) and proofs
checking the repository's specification against it.

Modelling conventions:
* The process environment is a function from variable names to string values.
  Go's os.Getenv returns the empty string both for an unset variable and for a
  variable set to the empty string, and the program only ever calls os.Getenv,
  so "unset" and "empty" are deliberately identified.
* Side effects (directory creation, credential-file write/removal, starting
  the child process, log records, stderr output) are recorded as an explicit
  event trace.
* The behaviour of the outside world (whether MkdirAll and WriteFile succeed,
  how the rclone child process exits, the measured wall-clock duration) is a
  parameter of type World.
* Go iterates over a map in an unspecified order; validateConfig's iteration
  over the eight required key/value pairs is therefore parametrised by a list
  `order` which theorems constrain to be a permutation of those pairs.
-/

namespace NauS3Sync

/-- The process environment: Go's os.Getenv, which yields "" for unset vars. -/
def Env : Type := String → String

/-- Embeds getEnvOrDefault (main.go:78-83): the environment value if
non-empty, otherwise the given default. -/
def getEnvOrDefault (env : Env) (key defaultValue : String) : String :=
  if env key ≠ "" then env key else defaultValue

/-- Decimal digit run parsed to a number; none if empty or a non-digit occurs.
Helper for the strconv.Atoi model. -/
def digitsToNat (l : List Char) : Option Nat :=
  if l = [] then none
  else if l.all Char.isDigit then
    some (l.foldl (fun a c => a * 10 + (c.toNat - 48)) 0)
  else none

/-- Embeds Go strconv.Atoi: optional single leading sign, then a non-empty
run of decimal digits; any other shape, or a value outside the 64-bit signed
range (Go reports ErrRange, so the caller sees a non-nil error), yields none. -/
def atoi (s : String) : Option Int :=
  let core : Option Int :=
    match s.data with
    | '+' :: rest => (digitsToNat rest).map (fun n => (n : Int))
    | '-' :: rest => (digitsToNat rest).map (fun n => -(n : Int))
    | l => (digitsToNat l).map (fun n => (n : Int))
  match core with
  | some n => if -(2 ^ 63) ≤ n ∧ n ≤ 2 ^ 63 - 1 then some n else none
  | none => none

/-- Embeds getEnvIntOrDefault (main.go:85-92): the parsed value when the
variable is non-empty and strconv.Atoi succeeds, otherwise the default. -/
def getEnvIntOrDefault (env : Env) (key : String) (defaultValue : Int) : Int :=
  if env key ≠ "" then
    match atoi (env key) with
    | some n => n
    | none => defaultValue
  else defaultValue

/-- Embeds the Config struct (main.go:14-29). DestPref is the Go field
DestPrefix (renamed here only for lexical reasons). -/
structure Config where
  SourceEndpoint : String
  SourceAccessKey : String
  SourceSecretKey : String
  SourceBucket : String
  DestEndpoint : String
  DestAccessKey : String
  DestSecretKey : String
  DestBucket : String
  DestPref : String
  DryRun : Bool
  MaxDelete : Int
  Retries : Int
  BandwidthLimit : String
  LogLevel : String
deriving DecidableEq, Repr

/-- Embeds the struct-building part of loadConfig (main.go:31-48), before
validation. -/
def mkConfig (env : Env) : Config :=
  let sourceBucket := getEnvOrDefault env "SOURCE_BUCKET" ""
  { SourceEndpoint := getEnvOrDefault env "SOURCE_S3_ENDPOINT" ""
    SourceAccessKey := getEnvOrDefault env "SOURCE_ACCESS_KEY" ""
    SourceSecretKey := getEnvOrDefault env "SOURCE_SECRET_KEY" ""
    SourceBucket := sourceBucket
    DestEndpoint := getEnvOrDefault env "DEST_S3_ENDPOINT" ""
    DestAccessKey := getEnvOrDefault env "DEST_ACCESS_KEY" ""
    DestSecretKey := getEnvOrDefault env "DEST_SECRET_KEY" ""
    DestBucket := getEnvOrDefault env "DEST_BUCKET" ""
    DestPref := getEnvOrDefault env "DEST_PREFIX" sourceBucket
    DryRun := getEnvOrDefault env "DRY_RUN" "false" == "true"
    MaxDelete := getEnvIntOrDefault env "MAX_DELETE" 1000
    Retries := getEnvIntOrDefault env "RETRIES" 3
    BandwidthLimit := getEnvOrDefault env "BANDWIDTH_LIMIT" ""
    LogLevel := getEnvOrDefault env "LOG_LEVEL" "info" }

/-- The eight required key/value pairs of validateConfig's map
(main.go:58-67), in source order. -/
def requiredOf (c : Config) : List (String × String) :=
  [("SOURCE_S3_ENDPOINT", c.SourceEndpoint),
   ("SOURCE_ACCESS_KEY", c.SourceAccessKey),
   ("SOURCE_SECRET_KEY", c.SourceSecretKey),
   ("SOURCE_BUCKET", c.SourceBucket),
   ("DEST_S3_ENDPOINT", c.DestEndpoint),
   ("DEST_ACCESS_KEY", c.DestAccessKey),
   ("DEST_SECRET_KEY", c.DestSecretKey),
   ("DEST_BUCKET", c.DestBucket)]

/-- The error text of validateConfig (main.go:71) for a missing variable. -/
def missingMsg (key : String) : String :=
  "required environment variable " ++ key ++ " is not set"

/-- Embeds validateConfig (main.go:57-76). Go iterates over the map in an
unspecified order, so the iteration order is an explicit parameter; theorems
require it to be a permutation of the eight required pairs. Returns the first
pair (in that order) whose value is empty, rendered as the error message. -/
def validateConfigWith (order : List (String × String)) : Option String :=
  (order.find? (fun kv => kv.2 == "")).map (fun kv => missingMsg kv.1)

/-- Embeds loadConfig (main.go:31-55): build the config, validate it over the
given map-iteration order, and wrap a validation failure. -/
def loadConfigWith (order : List (String × String)) (env : Env) :
    Except String Config :=
  match validateConfigWith order with
  | some e => Except.error ("configuration validation failed: " ++ e)
  | none => Except.ok (mkConfig env)

/-- Fuel-driven digit expansion: with fuel at least the digit count this is
the decimal representation, most significant digit first. Structural
recursion on the fuel keeps it kernel-computable. -/
def natDigitsGo : Nat → Nat → List Char
  | 0, n => [Char.ofNat (48 + n % 10)]
  | fuel + 1, n =>
    if n < 10 then [Char.ofNat (48 + n)]
    else natDigitsGo fuel (n / 10) ++ [Char.ofNat (48 + n % 10)]

/-- Decimal digits of a natural number, most significant first (the fuel n
always suffices, since a number has at most as many digits as its value).
Helper for the strconv.Itoa model. -/
def natDigits (n : Nat) : List Char := natDigitsGo n n

/-- Embeds Go strconv.Itoa: decimal representation, with a leading minus sign
for negative values. -/
def itoa (n : Int) : String :=
  if n < 0 then "-" ++ String.mk (natDigits n.natAbs)
  else String.mk (natDigits n.toNat)

/-- One observable side effect of a run. fileWritten records path, contents
and permission bits; procStarted records the command name and argument list;
logged records a structured log record; stderrLine a line printed to the
error stream. -/
inductive Event where
  | dirCreated (path : String)
  | fileWritten (path : String) (contents : String) (perm : Nat)
  | fileRemoved (path : String)
  | procStarted (cmd : String) (args : List String)
  | logged (level : Nat) (msg : String) (fields : List (String × String))
  | stderrLine (line : String)
deriving DecidableEq, Repr

/-- The outside world's behaviour during one run: whether os.MkdirAll and
os.WriteFile fail (and with what error text), how cmd.Run ends (none = the
child started and exited with status zero; some msg = start failure or
non-zero exit, msg being the error text Go reports), and the measured
wall-clock duration. -/
structure World where
  mkdirErr : Option String
  writeErr : Option String
  childErr : Option String
  duration : Nat
deriving DecidableEq, Repr

/-- The fixed scratch directory (main.go:96). -/
def configDir : String := "/tmp/rclone-config"

/-- The fixed credential file path (main.go:101). -/
def configFilePath : String := configDir ++ "/rclone.conf"

/-- The rendered credential file contents: the fmt.Sprintf template of
createRcloneConfig (main.go:102-118) with the six values spliced in. -/
def rcloneConfContent (c : Config) : String :=
  "[source]\ntype = s3\nprovider = Other\naccess_key_id = " ++ c.SourceAccessKey
  ++ "\nsecret_access_key = " ++ c.SourceSecretKey
  ++ "\nendpoint = " ++ c.SourceEndpoint
  ++ "\nacl = private\n\n[dest]\ntype = s3\nprovider = Other\naccess_key_id = "
  ++ c.DestAccessKey
  ++ "\nsecret_access_key = " ++ c.DestSecretKey
  ++ "\nendpoint = " ++ c.DestEndpoint
  ++ "\nacl = private\n"

/-- Embeds createRcloneConfig (main.go:95-125): create the scratch directory
(0700), then write the credential file with permission bits 0600 (= 384).
Returns the file path or the wrapped error, plus the events performed. -/
def createRcloneConfig (w : World) (c : Config) :
    Except String String × List Event :=
  match w.mkdirErr with
  | some e =>
      (Except.error ("failed to create rclone config directory: " ++ e), [])
  | none =>
      match w.writeErr with
      | some e =>
          (Except.error ("failed to write rclone config: " ++ e),
           [Event.dirCreated configDir])
      | none =>
          (Except.ok configFilePath,
           [Event.dirCreated configDir,
            Event.fileWritten configFilePath (rcloneConfContent c) 384])

/-- The source remote identifier (main.go:134). -/
def sourceRemote (c : Config) : String := "source:" ++ c.SourceBucket

/-- The destination remote identifier (main.go:135). -/
def destRemote (c : Config) : String :=
  "dest:" ++ c.DestBucket ++ "/" ++ c.DestPref

/-- The rclone argument list built by runSync (main.go:137-161): the fixed
base arguments, then conditionally the dry-run flag, the max-delete flag
(only when MaxDelete > 0) and the bandwidth limit (only when non-empty). -/
def runSyncArgs (c : Config) (configFile : String) : List String :=
  let args := ["sync", sourceRemote c, destRemote c,
               "--config", configFile,
               "--delete-during",
               "--checksum",
               "--retries", itoa c.Retries,
               "--stats", "1m",
               "--stats-log-level", "INFO",
               "--progress"]
  let args := if c.DryRun then args ++ ["--dry-run"] else args
  let args := if 0 < c.MaxDelete then
    args ++ ["--max-delete", itoa c.MaxDelete] else args
  let args := if c.BandwidthLimit ≠ "" then
    args ++ ["--bwlimit", c.BandwidthLimit] else args
  args

/-- logrus numeric levels: panic 0, fatal 1, error 2, warn 3, info 4,
debug 5, trace 6. A record is emitted when its level is at most the
logger's configured level. -/
def emit (loggerLevel recordLevel : Nat) (msg : String)
    (fields : List (String × String)) : List Event :=
  if recordLevel ≤ loggerLevel then [Event.logged recordLevel msg fields]
  else []

/-- Serialisation of a boolean into a log field value. -/
def boolStr (b : Bool) : String := if b then "true" else "false"

/-- Embeds runSync (main.go:127-187): render the credential file (wrapping a
failure), build the arguments, log the dry-run notice and the pre-invocation
record, run the child, log the post-invocation record, and (via defer) remove
the credential file before returning on every path after it was created. -/
def runSync (loggerLevel : Nat) (w : World) (c : Config) :
    Except String Unit × List Event :=
  match createRcloneConfig w c with
  | (Except.error e, evs) =>
      (Except.error ("failed to create rclone config: " ++ e), evs)
  | (Except.ok configFile, evs) =>
      let args := runSyncArgs c configFile
      let dryLog := if c.DryRun then
        emit loggerLevel 4 "Running in dry-run mode - no changes will be made" []
        else []
      let preLog := emit loggerLevel 4 "Starting rclone sync"
        [("source", sourceRemote c), ("dest", destRemote c),
         ("args", String.intercalate " " args)]
      let postLog := emit loggerLevel 4 "Sync operation completed"
        [("duration", toString w.duration),
         ("success", boolStr w.childErr.isNone)]
      let trace := evs ++ dryLog ++ preLog
        ++ [Event.procStarted "rclone" args] ++ postLog
        ++ [Event.fileRemoved configFile]
      match w.childErr with
      | none => (Except.ok (), trace)
      | some m => (Except.error ("rclone sync failed: " ++ m), trace)

/-- Embeds logrus.ParseLevel as used by setupLogger: case-insensitive match
of the level names onto logrus's numeric levels. -/
def parseLevel (s : String) : Option Nat :=
  match s.toLower with
  | "panic" => some 0
  | "fatal" => some 1
  | "error" => some 2
  | "warn" => some 3
  | "warning" => some 3
  | "info" => some 4
  | "debug" => some 5
  | "trace" => some 6
  | _ => none

/-- Embeds setupLogger (main.go:189-200): an unrecognised level string falls
back to info (level 4). -/
def setupLoggerLevel (s : String) : Nat := (parseLevel s).getD 4

/-- The part of main after a successful configuration load (main.go:209-222):
set up the logger, log the start record, run the sync, and either log the
fatal record and exit 1 or log the completion record and exit 0. -/
def mainFromConfig (w : World) (c : Config) : Nat × List Event :=
  let lvl := setupLoggerLevel c.LogLevel
  let startLog := emit lvl 4 "Starting S3 sync job"
    [("source_bucket", c.SourceBucket), ("dest_bucket", c.DestBucket),
     ("dest_prefix", c.DestPref), ("dry_run", boolStr c.DryRun)]
  match runSync lvl w c with
  | (Except.error e, evs) =>
      (1, startLog ++ evs ++ emit lvl 1 "Sync operation failed" [("error", e)])
  | (Except.ok _, evs) =>
      (0, startLog ++ evs ++ emit lvl 4 "S3 sync job completed successfully" [])

/-- Embeds main (main.go:202-223): on a configuration error, print it to the
error stream and exit 1 with no other side effect; otherwise continue with
mainFromConfig. The exit code is the first component. -/
def mainModel (order : List (String × String)) (w : World) (env : Env) :
    Nat × List Event :=
  match loadConfigWith order env with
  | Except.error e => (1, [Event.stderrLine ("Configuration error: " ++ e)])
  | Except.ok c => mainFromConfig w c

/-- The log records of a trace (the fileWritten contents are not records). -/
def logsOfTrace (evs : List Event) : List Event :=
  evs.filter (fun ev => match ev with
    | Event.logged _ _ _ => true
    | _ => false)

/-- Split a character list at every occurrence of sep (text lines when sep is
the newline character). -/
def splitOnChar (sep : Char) : List Char → List (List Char)
  | [] => [[]]
  | c :: cs =>
    if c = sep then [] :: splitOnChar sep cs
    else
      match splitOnChar sep cs with
      | [] => [[c]]
      | h :: t => (c :: h) :: t

/-- The section name of an INI line: the bracketed text when the line is
bracketed, none otherwise. -/
def headerName (l : List Char) : Option (List Char) :=
  if l.head? = some '[' ∧ l.getLast? = some ']' then
    some ((l.drop 1).dropLast)
  else none

/-- The lines of the rendered credential file, as established by theorem
rcloneConfContent_data below. -/
def confSplit (c : Config) : List (List Char) :=
  ["[source]".data, "type = s3".data, "provider = Other".data,
   "access_key_id = ".data ++ c.SourceAccessKey.data,
   "secret_access_key = ".data ++ c.SourceSecretKey.data,
   "endpoint = ".data ++ c.SourceEndpoint.data,
   "acl = private".data, [],
   "[dest]".data, "type = s3".data, "provider = Other".data,
   "access_key_id = ".data ++ c.DestAccessKey.data,
   "secret_access_key = ".data ++ c.DestSecretKey.data,
   "endpoint = ".data ++ c.DestEndpoint.data,
   "acl = private".data, []]

/-- The unconditional part of the rclone argument list (main.go:137-148). -/
def baseArgs (c : Config) (configFile : String) : List String :=
  ["sync", sourceRemote c, destRemote c,
   "--config", configFile,
   "--delete-during",
   "--checksum",
   "--retries", itoa c.Retries,
   "--stats", "1m",
   "--stats-log-level", "INFO",
   "--progress"]

/-- An environment with all eight required variables set, used as a concrete
test fixture. -/
def envGood : Env := fun k =>
  if k = "SOURCE_S3_ENDPOINT" then "https://src.example.com" else
  if k = "SOURCE_ACCESS_KEY" then "AK1" else
  if k = "SOURCE_SECRET_KEY" then "SK1" else
  if k = "SOURCE_BUCKET" then "srcbucket" else
  if k = "DEST_S3_ENDPOINT" then "https://dst.example.com" else
  if k = "DEST_ACCESS_KEY" then "AK2" else
  if k = "DEST_SECRET_KEY" then "SK2" else
  if k = "DEST_BUCKET" then "dstbucket" else ""

/-- envGood with MAX_DELETE set to a non-numeric string and RETRIES to 7. -/
def envInts : Env := fun k =>
  if k = "MAX_DELETE" then "not-a-number" else
  if k = "RETRIES" then "7" else envGood k

/-- envGood with DEST_PREFIX set. -/
def envPref : Env := fun k =>
  if k = "DEST_PREFIX" then "backup/2024" else envGood k

/-- An environment missing SOURCE_ACCESS_KEY (set to the empty string, which
os.Getenv cannot distinguish from unset). -/
def envMissing : Env := fun k =>
  if k = "SOURCE_ACCESS_KEY" then "" else envGood k

/-- A concrete configuration with all eight required fields non-empty. -/
def cfgGood : Config := mkConfig envGood

/-- cfgGood with the bandwidth limit set to the literal string of the dry-run
flag, exhibiting the collision in the C6 claim. -/
def cfgCollide : Config :=
  { cfgGood with BandwidthLimit := "--dry-run" }

/-- A configuration whose fields are all empty (every required variable
missing). -/
def cfgEmpty : Config := mkConfig (fun _ => "")

/-- A world in which the filesystem works and the child exits with status
zero. -/
def wOk : World := ⟨none, none, none, 5⟩

/-- A world in which the filesystem works and the child exits non-zero. -/
def wFail : World := ⟨none, none, some "exit status 1", 7⟩

/-- The configuration c with its four secret fields replaced. -/
def maskKeys (c : Config) (a b d e : String) : Config :=
  { c with
      SourceAccessKey := a
      SourceSecretKey := b
      DestAccessKey := d
      DestSecretKey := e }

theorem splitOnChar_ne_nil (sep : Char) (l : List Char) :
    splitOnChar sep l ≠ [] := by
  cases l with
  | nil => simp [splitOnChar]
  | cons c cs =>
    simp only [splitOnChar]
    split
    · simp
    · split <;> simp

theorem splitOnChar_cons_sep (sep : Char) (r : List Char) :
    splitOnChar sep (sep :: r) = [] :: splitOnChar sep r := by
  simp [splitOnChar]

theorem splitOnChar_append (sep : Char) (l r : List Char) (h : sep ∉ l) :
    splitOnChar sep (l ++ r) = (splitOnChar sep r).modifyHead (l ++ ·) := by
  induction l with
  | nil =>
    simp only [List.nil_append]
    cases hr : splitOnChar sep r with
    | nil => exact absurd hr (splitOnChar_ne_nil sep r)
    | cons a t => simp
  | cons c cs ih =>
    have hc : c ≠ sep := fun hcs => h (hcs ▸ List.mem_cons_self c cs)
    have hcs' : sep ∉ cs := fun hm => h (List.mem_cons_of_mem c hm)
    cases hr : splitOnChar sep r with
    | nil => exact absurd hr (splitOnChar_ne_nil sep r)
    | cons a t =>
      simp only [List.cons_append, splitOnChar, if_neg hc]
      simp only [List.append_eq]
      rw [ih hcs', hr]
      simp

theorem splitOnChar_line (sep : Char) (l r : List Char) (h : sep ∉ l) :
    splitOnChar sep (l ++ sep :: r) = l :: splitOnChar sep r := by
  rw [splitOnChar_append sep l (sep :: r) h, splitOnChar_cons_sep]
  simp

theorem splitOnChar_no_sep (sep : Char) (l : List Char) (h : sep ∉ l) :
    splitOnChar sep l = [l] := by
  have := splitOnChar_append sep l [] h
  simpa [splitOnChar] using this

theorem splitOnChar_intercalate (sep : Char) (LS : List (List Char))
    (hne : LS ≠ []) (h : ∀ l ∈ LS, sep ∉ l) :
    splitOnChar sep (List.intercalate [sep] LS) = LS := by
  induction LS with
  | nil => exact absurd rfl hne
  | cons a t ih =>
    cases t with
    | nil =>
      simp only [List.intercalate, List.intersperse]
      simpa using splitOnChar_no_sep sep a (h a (by simp))
    | cons b t2 =>
      have hstep : List.intercalate [sep] (a :: b :: t2)
          = a ++ sep :: List.intercalate [sep] (b :: t2) := by
        simp [List.intercalate, List.intersperse]
      rw [hstep, splitOnChar_line sep a _ (h a (by simp)), ih (by simp)]
      intro l hl
      exact h l (List.mem_cons_of_mem a hl)

set_option maxRecDepth 8192 in
theorem rcloneConfContent_data (c : Config) :
    (rcloneConfContent c).data = List.intercalate ['\n'] (confSplit c) := by
  simp [rcloneConfContent, confSplit, String.data_append, List.intercalate,
    List.intersperse]

theorem digitChar_isDigit (k : Nat) (hk : k < 10) :
    (Char.ofNat (48 + k)).isDigit = true := by
  interval_cases k <;> decide

theorem natDigitsGo_isDigit (fuel : Nat) :
    ∀ (n : Nat), ∀ ch ∈ natDigitsGo fuel n, ch.isDigit = true := by
  induction fuel with
  | zero =>
    intro n ch hch
    simp only [natDigitsGo, List.mem_singleton] at hch
    subst hch
    exact digitChar_isDigit (n % 10) (Nat.mod_lt _ (by decide))
  | succ fuel ih =>
    intro n ch hch
    rw [natDigitsGo] at hch
    split at hch
    · next h =>
      simp only [List.mem_singleton] at hch
      subst hch
      exact digitChar_isDigit n h
    · next h =>
      rw [List.mem_append] at hch
      rcases hch with hch | hch
      · exact ih (n / 10) ch hch
      · simp only [List.mem_singleton] at hch
        subst hch
        exact digitChar_isDigit (n % 10) (Nat.mod_lt _ (by decide))

theorem natDigits_isDigit (n : Nat) : ∀ ch ∈ natDigits n, ch.isDigit = true :=
  natDigitsGo_isDigit n n

theorem itoa_ne_dashdash (n : Int) (rest : List Char) :
    itoa n ≠ String.mk ('-' :: '-' :: rest) := by
  unfold itoa
  split
  · intro h
    have hd := congrArg String.data h
    simp only [String.data_append] at hd
    have hd2 : '-' :: natDigits n.natAbs = '-' :: '-' :: rest := hd
    have hmem : '-' ∈ natDigits n.natAbs := by
      rw [List.cons.injEq] at hd2
      rw [hd2.2]
      exact List.mem_cons_self _ _
    have := natDigits_isDigit n.natAbs '-' hmem
    simp at this
  · intro h
    have hd : natDigits n.toNat = '-' :: '-' :: rest := congrArg String.data h
    have hmem : '-' ∈ natDigits n.toNat := by
      rw [hd]; exact List.mem_cons_self _ _
    have := natDigits_isDigit n.toNat '-' hmem
    simp at this

theorem itoa_ne_dry (n : Int) : itoa n ≠ "--dry-run" :=
  itoa_ne_dashdash n ['d', 'r', 'y', '-', 'r', 'u', 'n']

theorem itoa_ne_maxdel (n : Int) : itoa n ≠ "--max-delete" :=
  itoa_ne_dashdash n ['m', 'a', 'x', '-', 'd', 'e', 'l', 'e', 't', 'e']

theorem itoa_ne_bw (n : Int) : itoa n ≠ "--bwlimit" :=
  itoa_ne_dashdash n ['b', 'w', 'l', 'i', 'm', 'i', 't']

theorem ne_of_data_head {s t : String} {a b : Char}
    (hs : s.data.head? = some a) (ht : t.data.head? = some b) (hab : a ≠ b) :
    s ≠ t := by
  intro h
  subst h
  rw [hs] at ht
  exact hab (Option.some.inj ht)

theorem sourceRemote_head (c : Config) :
    (sourceRemote c).data.head? = some 's' := by
  simp [sourceRemote, String.data_append]

theorem destRemote_head (c : Config) :
    (destRemote c).data.head? = some 'd' := by
  simp [destRemote, String.data_append]

theorem runSyncArgs_eq (c : Config) (f : String) :
    runSyncArgs c f = baseArgs c f
      ++ (if c.DryRun then ["--dry-run"] else [])
      ++ (if 0 < c.MaxDelete then ["--max-delete", itoa c.MaxDelete] else [])
      ++ (if c.BandwidthLimit ≠ "" then ["--bwlimit", c.BandwidthLimit]
          else []) := by
  simp only [runSyncArgs, baseArgs]
  split <;> split <;> split <;> simp

theorem sourceRemote_ne_dash (c : Config) (t : String)
    (ht : t.data.head? = some '-') : sourceRemote c ≠ t :=
  ne_of_data_head (sourceRemote_head c) ht (by decide)

theorem destRemote_ne_dash (c : Config) (t : String)
    (ht : t.data.head? = some '-') : destRemote c ≠ t :=
  ne_of_data_head (destRemote_head c) ht (by decide)

theorem dry_not_mem_base (c : Config) :
    "--dry-run" ∉ baseArgs c configFilePath := by
  intro hmem
  simp only [baseArgs, configFilePath, configDir, List.mem_cons,
    List.not_mem_nil, or_false] at hmem
  rcases hmem with h | h | h | h | h | h | h | h | h | h | h | h | h | h <;>
    first
      | exact absurd h (by decide)
      | exact sourceRemote_ne_dash c "--dry-run" rfl h.symm
      | exact destRemote_ne_dash c "--dry-run" rfl h.symm
      | exact itoa_ne_dry c.Retries h.symm

theorem maxdel_not_mem_base (c : Config) :
    "--max-delete" ∉ baseArgs c configFilePath := by
  intro hmem
  simp only [baseArgs, configFilePath, configDir, List.mem_cons,
    List.not_mem_nil, or_false] at hmem
  rcases hmem with h | h | h | h | h | h | h | h | h | h | h | h | h | h <;>
    first
      | exact absurd h (by decide)
      | exact sourceRemote_ne_dash c "--max-delete" rfl h.symm
      | exact destRemote_ne_dash c "--max-delete" rfl h.symm
      | exact itoa_ne_maxdel c.Retries h.symm

theorem bw_not_mem_base (c : Config) :
    "--bwlimit" ∉ baseArgs c configFilePath := by
  intro hmem
  simp only [baseArgs, configFilePath, configDir, List.mem_cons,
    List.not_mem_nil, or_false] at hmem
  rcases hmem with h | h | h | h | h | h | h | h | h | h | h | h | h | h <;>
    first
      | exact absurd h (by decide)
      | exact sourceRemote_ne_dash c "--bwlimit" rfl h.symm
      | exact destRemote_ne_dash c "--bwlimit" rfl h.symm
      | exact itoa_ne_bw c.Retries h.symm

theorem pair_not_infix_of_last {α : Type} [DecidableEq α] (l : List α)
    (a x : α) (h1 : l.getLast? = some a) (h2 : l.count a = 1) :
    ¬ List.IsInfix [a, x] l := by
  rintro ⟨s, t, heq⟩
  have hl : l = s ++ a :: x :: t := by rw [← heq]; simp
  have hcnt : l.count a = s.count a + (1 + (x :: t).count a) := by
    rw [hl]
    simp [List.count_append, List.count_cons_self]
    omega
  have hnot : a ∉ x :: t := by
    intro hmem
    have := List.count_pos_iff.mpr hmem
    omega
  have hlast : l.getLast? = (x :: t).getLast? := by
    rw [hl, List.getLast?_append_cons, List.getLast?_cons_cons]
  rw [h1] at hlast
  exact hnot (List.mem_of_mem_getLast? hlast.symm)

/-- C7: the loaded dry-run field is true if and only if the raw value of
DRY_RUN is exactly the string "true"; every other value (unset — which
os.Getenv reports as the empty string — "false", "True", "TRUE", "1", ...)
yields false. -/
theorem c7_dry_run_iff_exact_true (env : Env) :
    (mkConfig env).DryRun = true ↔ env "DRY_RUN" = "true" := by
  simp only [mkConfig, getEnvOrDefault]
  by_cases h : env "DRY_RUN" = "" <;> simp [h]

/-- C8: when DEST_PREFIX is unset or empty, the resolved destination prefix
equals the value of SOURCE_BUCKET; when DEST_PREFIX is non-empty, the
resolved prefix is that string exactly. -/
theorem c8_dest_prefix_default (env : Env) :
    (env "DEST_PREFIX" = "" → (mkConfig env).DestPref = env "SOURCE_BUCKET")
    ∧ (env "DEST_PREFIX" ≠ "" →
        (mkConfig env).DestPref = env "DEST_PREFIX") := by
  constructor <;> intro h <;>
    by_cases hb : env "SOURCE_BUCKET" = "" <;>
      simp [mkConfig, getEnvOrDefault, h, hb]

/-- Witness for C8 at concrete environments: with DEST_PREFIX set the prefix
is taken verbatim, with it unset the prefix falls back to SOURCE_BUCKET. -/
theorem c8_dest_prefix_default_witness :
    (mkConfig envPref).DestPref = envPref "DEST_PREFIX"
    ∧ (mkConfig envGood).DestPref = envGood "SOURCE_BUCKET" :=
  ⟨(c8_dest_prefix_default envPref).2 (by decide),
   (c8_dest_prefix_default envGood).1 (by decide)⟩

/-- C9: for MAX_DELETE and RETRIES, an unset variable or a value that
strconv.Atoi rejects silently falls back to the defaults 1000 and 3, and a
parseable value is used as parsed. (atoi returns none on the empty string, so
the second conjunct of each half also covers the unset case.) -/
theorem c9_int_fields_permissive (env : Env) :
    ((env "MAX_DELETE" = "" → (mkConfig env).MaxDelete = 1000)
     ∧ (atoi (env "MAX_DELETE") = none → (mkConfig env).MaxDelete = 1000)
     ∧ (∀ n : Int, atoi (env "MAX_DELETE") = some n →
         (mkConfig env).MaxDelete = n))
    ∧ ((env "RETRIES" = "" → (mkConfig env).Retries = 3)
       ∧ (atoi (env "RETRIES") = none → (mkConfig env).Retries = 3)
       ∧ (∀ n : Int, atoi (env "RETRIES") = some n →
           (mkConfig env).Retries = n)) := by
  have hempty : atoi "" = none := by decide
  refine ⟨⟨fun h => ?_, fun h => ?_, fun n h => ?_⟩,
          ⟨fun h => ?_, fun h => ?_, fun n h => ?_⟩⟩
  · simp [mkConfig, getEnvIntOrDefault, h]
  · by_cases hv : env "MAX_DELETE" = ""
    · simp [mkConfig, getEnvIntOrDefault, hv]
    · simp [mkConfig, getEnvIntOrDefault, hv, h]
  · by_cases hv : env "MAX_DELETE" = ""
    · rw [hv] at h; rw [hempty] at h; cases h
    · simp [mkConfig, getEnvIntOrDefault, hv, h]
  · simp [mkConfig, getEnvIntOrDefault, h]
  · by_cases hv : env "RETRIES" = ""
    · simp [mkConfig, getEnvIntOrDefault, hv]
    · simp [mkConfig, getEnvIntOrDefault, hv, h]
  · by_cases hv : env "RETRIES" = ""
    · rw [hv] at h; rw [hempty] at h; cases h
    · simp [mkConfig, getEnvIntOrDefault, hv, h]

/-- Witness for C9 at a concrete environment: MAX_DELETE="not-a-number"
silently yields 1000, RETRIES="7" parses to 7. -/
theorem c9_int_fields_permissive_witness :
    (mkConfig envInts).MaxDelete = 1000 ∧ (mkConfig envInts).Retries = 7 :=
  ⟨(c9_int_fields_permissive envInts).1.2.1 (by decide),
   (c9_int_fields_permissive envInts).2.2.2 7 (by decide)⟩

theorem baseSegment (c : Config) :
    baseArgs c configFilePath <:+: runSyncArgs c configFilePath := by
  rw [runSyncArgs_eq, List.append_assoc, List.append_assoc]
  exact (List.prefix_append _ _).isInfix

/-- C5: the constructed argument list always contains the remote identifiers
source:SourceBucket and dest:DestBucket/DestPrefix, the delete-during and
checksum flags, a one-minute stats interval logged at INFO level, and a
retries flag whose value is the configured retry count. -/
theorem c5_args_core (c : Config) :
    sourceRemote c = "source:" ++ c.SourceBucket
    ∧ destRemote c = "dest:" ++ c.DestBucket ++ "/" ++ c.DestPref
    ∧ sourceRemote c ∈ runSyncArgs c configFilePath
    ∧ destRemote c ∈ runSyncArgs c configFilePath
    ∧ "--delete-during" ∈ runSyncArgs c configFilePath
    ∧ "--checksum" ∈ runSyncArgs c configFilePath
    ∧ ["--retries", itoa c.Retries] <:+: runSyncArgs c configFilePath
    ∧ ["--stats", "1m"] <:+: runSyncArgs c configFilePath
    ∧ ["--stats-log-level", "INFO"] <:+: runSyncArgs c configFilePath := by
  refine ⟨rfl, rfl, ?_, ?_, ?_, ?_, ?_, ?_, ?_⟩
  · exact (baseSegment c).subset (by simp [baseArgs])
  · exact (baseSegment c).subset (by simp [baseArgs])
  · exact (baseSegment c).subset (by simp [baseArgs])
  · exact (baseSegment c).subset (by simp [baseArgs])
  · exact List.IsInfix.trans
      ⟨["sync", sourceRemote c, destRemote c, "--config", configFilePath,
        "--delete-during", "--checksum"],
       ["--stats", "1m", "--stats-log-level", "INFO", "--progress"], rfl⟩
      (baseSegment c)
  · exact List.IsInfix.trans
      ⟨["sync", sourceRemote c, destRemote c, "--config", configFilePath,
        "--delete-during", "--checksum", "--retries", itoa c.Retries],
       ["--stats-log-level", "INFO", "--progress"], rfl⟩
      (baseSegment c)
  · exact List.IsInfix.trans
      ⟨["sync", sourceRemote c, destRemote c, "--config", configFilePath,
        "--delete-during", "--checksum", "--retries", itoa c.Retries,
        "--stats", "1m"],
       ["--progress"], rfl⟩
      (baseSegment c)

/-- Counterexample to C6 as stated: with dry-run disabled but
BANDWIDTH_LIMIT set to the literal string "--dry-run", the token "--dry-run"
does occur in the argument list (as the value following the bandwidth-limit
flag), so "contains the dry-run flag iff the dry-run field is true" fails. -/
theorem c6_counterexample :
    cfgCollide.DryRun = false
    ∧ "--dry-run" ∈ runSyncArgs cfgCollide configFilePath := by
  constructor
  · decide
  · decide

/-- C6 as amended: the dry-run token occurs in the argument list iff the
dry-run field is true or the bandwidth-limit string is the literal
"--dry-run" (in which case it occurs as that flag's value); the max-delete
flag followed by the configured value occurs iff the ceiling is strictly
positive; the bandwidth-limit flag followed by the configured value occurs
iff the bandwidth-limit string is non-empty. -/
theorem c6_conditional_flags (c : Config) :
    ("--dry-run" ∈ runSyncArgs c configFilePath
      ↔ (c.DryRun = true ∨ c.BandwidthLimit = "--dry-run"))
    ∧ (["--max-delete", itoa c.MaxDelete] <:+: runSyncArgs c configFilePath
      ↔ 0 < c.MaxDelete)
    ∧ (["--bwlimit", c.BandwidthLimit] <:+: runSyncArgs c configFilePath
      ↔ c.BandwidthLimit ≠ "") := by
  refine ⟨⟨?_, ?_⟩, ⟨?_, ?_⟩, ⟨?_, ?_⟩⟩
  · intro hmem
    by_contra hcon
    push_neg at hcon
    obtain ⟨hdry, hbw⟩ := hcon
    have hdry' : c.DryRun = false := by
      revert hdry; cases c.DryRun <;> simp
    rw [runSyncArgs_eq] at hmem
    simp only [hdry', Bool.false_eq_true, if_false, List.append_nil,
      List.nil_append, List.mem_append] at hmem
    rcases hmem with (hmem | hmem) | hmem
    · exact dry_not_mem_base c hmem
    · split at hmem
      · simp only [List.mem_cons, List.not_mem_nil, or_false] at hmem
        rcases hmem with h | h
        · exact absurd h (by decide)
        · exact itoa_ne_dry c.MaxDelete h.symm
      · exact List.not_mem_nil _ hmem
    · split at hmem
      · simp only [List.mem_cons, List.not_mem_nil, or_false] at hmem
        rcases hmem with h | h
        · exact absurd h (by decide)
        · exact hbw h.symm
      · exact List.not_mem_nil _ hmem
  · intro h
    rw [runSyncArgs_eq]
    rcases h with hdry | hbw
    · simp [hdry]
    · have hne : c.BandwidthLimit ≠ "" := by rw [hbw]; decide
      simp [hne, hbw]
  · intro hinf
    by_contra hpos
    rw [runSyncArgs_eq, if_neg hpos, List.append_nil] at hinf
    by_cases hbw : c.BandwidthLimit = "--max-delete"
    · have hne : c.BandwidthLimit ≠ "" := by rw [hbw]; decide
      rw [if_pos hne, hbw] at hinf
      refine pair_not_infix_of_last _ "--max-delete" (itoa c.MaxDelete)
        ?_ ?_ hinf
      · rw [List.getLast?_append_cons]
        rfl
      · rw [List.count_append]
        have h0 : (baseArgs c configFilePath
            ++ if c.DryRun then ["--dry-run"] else []).count "--max-delete"
            = 0 := by
          rw [List.count_append]
          have hb : (baseArgs c configFilePath).count "--max-delete" = 0 :=
            List.count_eq_zero.mpr (maxdel_not_mem_base c)
          have hd : (if c.DryRun then ["--dry-run"]
              else ([] : List String)).count "--max-delete" = 0 := by
            split <;> decide
          omega
        rw [h0]
        decide
    · have hmem := hinf.subset (List.mem_cons_self "--max-delete" _)
      simp only [List.mem_append] at hmem
      rcases hmem with (hmem | hmem) | hmem
      · exact maxdel_not_mem_base c hmem
      · split at hmem
        · simp only [List.mem_cons, List.not_mem_nil, or_false] at hmem
          exact absurd hmem (by decide)
        · exact List.not_mem_nil _ hmem
      · split at hmem
        · simp only [List.mem_cons, List.not_mem_nil, or_false] at hmem
          rcases hmem with h | h
          · exact absurd h (by decide)
          · exact hbw h.symm
        · exact List.not_mem_nil _ hmem
  · intro hpos
    rw [runSyncArgs_eq, if_pos hpos]
    refine ⟨baseArgs c configFilePath
      ++ (if c.DryRun then ["--dry-run"] else []),
      (if c.BandwidthLimit ≠ "" then ["--bwlimit", c.BandwidthLimit]
        else []), by simp⟩
  · intro hinf
    intro hbw
    have hne' : ¬ (c.BandwidthLimit ≠ "") := by simp [hbw]
    rw [runSyncArgs_eq, if_neg hne', List.append_nil] at hinf
    have hmem := hinf.subset (List.mem_cons_self "--bwlimit" _)
    simp only [List.mem_append] at hmem
    rcases hmem with (hmem | hmem) | hmem
    · exact bw_not_mem_base c hmem
    · split at hmem
      · simp only [List.mem_cons, List.not_mem_nil, or_false] at hmem
        exact absurd hmem (by decide)
      · exact List.not_mem_nil _ hmem
    · split at hmem
      · simp only [List.mem_cons, List.not_mem_nil, or_false] at hmem
        rcases hmem with h | h
        · exact absurd h (by decide)
        · exact itoa_ne_bw c.MaxDelete h.symm
      · exact List.not_mem_nil _ hmem
  · intro hne
    rw [runSyncArgs_eq, if_pos hne]
    exact ⟨baseArgs c configFilePath
      ++ (if c.DryRun then ["--dry-run"] else [])
      ++ (if 0 < c.MaxDelete then ["--max-delete", itoa c.MaxDelete]
          else []), [], by simp⟩

/-- C1: the configuration load fails, with an error naming a genuinely
missing variable, exactly when some required value is empty, for every
map-iteration order the Go runtime may choose; on failure the process exits 1
having performed no side effect beyond the stderr report (in particular no
credential file write and no subprocess start); with all eight values
non-empty the load succeeds. -/
theorem c1_required_validation (env : Env) (order : List (String × String))
    (w : World) (hperm : order.Perm (requiredOf (mkConfig env))) :
    ((∃ kv ∈ requiredOf (mkConfig env), kv.2 = "") →
      ∃ k, (k, "") ∈ requiredOf (mkConfig env)
        ∧ loadConfigWith order env
            = Except.error ("configuration validation failed: "
                ++ missingMsg k)
        ∧ mainModel order w env
            = (1, [Event.stderrLine ("Configuration error: "
                ++ ("configuration validation failed: " ++ missingMsg k))]))
    ∧ ((∀ kv ∈ requiredOf (mkConfig env), kv.2 ≠ "") →
        loadConfigWith order env = Except.ok (mkConfig env)) := by
  constructor
  · rintro ⟨kv, hkvmem, hkv⟩
    have hkvo : kv ∈ order := hperm.mem_iff.mpr hkvmem
    have hsome : (order.find? (fun kv => kv.2 == "")).isSome := by
      rw [List.find?_isSome]
      exact ⟨kv, hkvo, by simp [hkv]⟩
    obtain ⟨kv', hfind⟩ := Option.isSome_iff_exists.mp hsome
    have hkv' : kv'.2 = "" := by simpa using List.find?_some hfind
    have hmem' : kv' ∈ requiredOf (mkConfig env) :=
      hperm.subset (List.mem_of_find?_eq_some hfind)
    refine ⟨kv'.1, ?_, ?_, ?_⟩
    · have h2 : (kv'.1, "") = kv' := by rw [← hkv']
      rw [h2]
      exact hmem'
    · simp [loadConfigWith, validateConfigWith, hfind]
    · simp [mainModel, loadConfigWith, validateConfigWith, hfind]
  · intro hall
    have hnone : order.find? (fun kv => kv.2 == "") = none := by
      rw [List.find?_eq_none]
      intro kv hkvo
      simpa using hall kv (hperm.subset hkvo)
    simp [loadConfigWith, validateConfigWith, hnone]

/-- Witness for C1: with SOURCE_ACCESS_KEY empty the load fails and main
exits 1 with only the stderr report; with all eight variables present the
load succeeds. -/
theorem c1_required_validation_witness :
    (∃ k, (k, "") ∈ requiredOf (mkConfig envMissing)
      ∧ loadConfigWith (requiredOf (mkConfig envMissing)) envMissing
          = Except.error ("configuration validation failed: "
              ++ missingMsg k)
      ∧ mainModel (requiredOf (mkConfig envMissing)) wOk envMissing
          = (1, [Event.stderrLine ("Configuration error: "
              ++ ("configuration validation failed: " ++ missingMsg k))]))
    ∧ loadConfigWith (requiredOf (mkConfig envGood)) envGood
        = Except.ok (mkConfig envGood) :=
  ⟨(c1_required_validation envMissing (requiredOf (mkConfig envMissing)) wOk
      (List.Perm.refl _)).1 (by decide),
   (c1_required_validation envGood (requiredOf (mkConfig envGood)) wOk
      (List.Perm.refl _)).2 (by decide)⟩

/-- C10: whatever iteration order the Go map yields, a validation failure
message is the single-variable message for one genuinely missing variable
(never a list of all of them), and two different iteration orders over the
same configuration can name different variables — the choice is not a
function of the environment alone. -/
theorem c10_one_missing_named :
    (∀ (c : Config) (order : List (String × String)),
      order.Perm (requiredOf c) →
      ∀ m, validateConfigWith order = some m →
        ∃ k, m = missingMsg k ∧ (k, "") ∈ requiredOf c)
    ∧ (∃ (c : Config) (o₁ o₂ : List (String × String)),
        o₁.Perm (requiredOf c) ∧ o₂.Perm (requiredOf c) ∧
        validateConfigWith o₁ ≠ validateConfigWith o₂) := by
  constructor
  · intro c order hperm m hm
    unfold validateConfigWith at hm
    cases hfind : order.find? (fun kv => kv.2 == "") with
    | none => rw [hfind] at hm; cases hm
    | some kv =>
      rw [hfind] at hm
      simp only [Option.map_some', Option.some.injEq] at hm
      have hkv : kv.2 = "" := by simpa using List.find?_some hfind
      have hmem : kv ∈ requiredOf c :=
        hperm.subset (List.mem_of_find?_eq_some hfind)
      refine ⟨kv.1, hm.symm, ?_⟩
      have h2 : (kv.1, "") = kv := by rw [← hkv]
      rw [h2]
      exact hmem
  · exact ⟨cfgEmpty, requiredOf cfgEmpty, (requiredOf cfgEmpty).reverse,
      List.Perm.refl _, (requiredOf cfgEmpty).reverse_perm, by decide⟩

theorem mem_emit {ev : Event} {lvl n : Nat} {msg : String}
    {fs : List (String × String)} (h : ev ∈ emit lvl n msg fs) :
    ev = Event.logged n msg fs := by
  unfold emit at h
  split at h
  · simpa using h
  · cases h

/-- C2: with the filesystem cooperating, the sync invocation succeeds iff
the child process exits with status zero, and any start failure or non-zero
exit surfaces as the wrapped engine error (exiting the process non-zero);
moreover on every path, once the credential file has been written it is also
removed before runSync returns. -/
theorem c2_result_and_cleanup (lvl : Nat) (w : World) (c : Config) :
    (w.mkdirErr = none → w.writeErr = none →
      (((runSync lvl w c).1 = Except.ok ()) ↔ w.childErr = none)
      ∧ (∀ m, w.childErr = some m →
          (runSync lvl w c).1 = Except.error ("rclone sync failed: " ++ m)))
    ∧ (∀ p cont pm, Event.fileWritten p cont pm ∈ (runSync lvl w c).2 →
        Event.fileRemoved p ∈ (runSync lvl w c).2)
    ∧ (∀ (order : List (String × String)) (env : Env) (m : String),
        loadConfigWith order env = Except.ok c → w.childErr = some m →
        (mainModel order w env).1 = 1) := by
  obtain ⟨mke, we, che, dur⟩ := w
  refine ⟨?_, ?_, ?_⟩
  · intro hmk hwr
    cases hmk
    cases hwr
    cases che with
    | none => simp [runSync, createRcloneConfig]
    | some m => simp [runSync, createRcloneConfig]
  · intro p cont pm hmem
    cases mke with
    | some e => simp [runSync, createRcloneConfig] at hmem
    | none =>
      cases we with
      | some e => simp [runSync, createRcloneConfig] at hmem
      | none =>
        cases che <;>
        · simp only [runSync, createRcloneConfig, List.mem_append,
            List.mem_cons, List.not_mem_nil, or_false, or_assoc] at hmem
          have hp : p = configFilePath := by
            rcases hmem with h | h | h | h | h | h | h
            · exact Event.noConfusion h
            · rcases (show p = configFilePath ∧ cont = rcloneConfContent c
                  ∧ pm = 384 by simpa using h) with ⟨h1, -, -⟩
              exact h1
            · rcases hdry : c.DryRun <;> rw [hdry] at h
              · exact absurd h (List.not_mem_nil _)
              · exact Event.noConfusion (mem_emit h)
            · exact Event.noConfusion (mem_emit h)
            · exact Event.noConfusion h
            · exact Event.noConfusion (mem_emit h)
            · exact Event.noConfusion h
          subst hp
          simp [runSync, createRcloneConfig]
  · intro order env m hload hch
    cases hch
    simp only [mainModel, hload, mainFromConfig]
    cases mke with
    | some e => simp [runSync, createRcloneConfig]
    | none =>
      cases we with
      | some e => simp [runSync, createRcloneConfig]
      | none => simp [runSync, createRcloneConfig]

set_option maxRecDepth 100000 in
/-- Witness for C2: in a world where the child exits non-zero, runSync
reports the wrapped engine error, the credential file is written and then
removed, and main exits 1. -/
theorem c2_result_and_cleanup_witness :
    ((runSync 4 wFail cfgGood).1
      = Except.error ("rclone sync failed: " ++ "exit status 1"))
    ∧ Event.fileRemoved configFilePath ∈ (runSync 4 wFail cfgGood).2
    ∧ (mainModel (requiredOf cfgGood) wFail envGood).1 = 1 :=
  ⟨((c2_result_and_cleanup 4 wFail cfgGood).1 rfl rfl).2 "exit status 1" rfl,
   (c2_result_and_cleanup 4 wFail cfgGood).2.1 configFilePath
     (rcloneConfContent cfgGood) 384 (by decide),
   (c2_result_and_cleanup 4 wFail cfgGood).2.2 (requiredOf cfgGood) envGood
     "exit status 1" (by rfl) rfl⟩

/-- C4: no log record the program emits depends on the four secret fields:
replacing the source/destination access and secret keys changes no logged
record, on any path (the keys reach only the credential-file contents, which
are not a log record). -/
theorem c4_secrets_not_logged (w : World) (c : Config) (a b d e : String) :
    logsOfTrace (mainFromConfig w (maskKeys c a b d e)).2
      = logsOfTrace (mainFromConfig w c).2 := by
  have hsr : sourceRemote (maskKeys c a b d e) = sourceRemote c := rfl
  have hdr : destRemote (maskKeys c a b d e) = destRemote c := rfl
  have hargs : runSyncArgs (maskKeys c a b d e) configFilePath
      = runSyncArgs c configFilePath := rfl
  have hlvl : setupLoggerLevel (maskKeys c a b d e).LogLevel
      = setupLoggerLevel c.LogLevel := rfl
  have hdry : (maskKeys c a b d e).DryRun = c.DryRun := rfl
  have hsb : (maskKeys c a b d e).SourceBucket = c.SourceBucket := rfl
  have hdb : (maskKeys c a b d e).DestBucket = c.DestBucket := rfl
  have hdp : (maskKeys c a b d e).DestPref = c.DestPref := rfl
  obtain ⟨mke, we, che, dur⟩ := w
  cases mke <;> cases we <;> cases che <;>
  · simp only [mainFromConfig, runSync, createRcloneConfig, emit, hsr, hdr,
      hargs, hlvl, hdry, hsb, hdb, hdp]
    try
      cases hdryb : c.DryRun <;>
        by_cases h4 : 4 ≤ setupLoggerLevel c.LogLevel <;>
          by_cases h1 : 1 ≤ setupLoggerLevel c.LogLevel <;>
            simp [logsOfTrace, boolStr, hdryb, h4, h1]

/-- Witness for C10: for the all-empty configuration iterated in source
order, the message names SOURCE_S3_ENDPOINT, which is genuinely missing. -/
theorem c10_one_missing_named_witness :
    ∃ k, missingMsg "SOURCE_S3_ENDPOINT" = missingMsg k
      ∧ (k, "") ∈ requiredOf cfgEmpty :=
  c10_one_missing_named.1 cfgEmpty (requiredOf cfgEmpty) (List.Perm.refl _)
    (missingMsg "SOURCE_S3_ENDPOINT") (by decide)

/-- Counterexample to C3 as stated: the rendered file's section headers are
"source" and "dest"; there is no section named "destination". -/
theorem c3_counterexample :
    (splitOnChar '\n' (rcloneConfContent cfgGood).data).filterMap headerName
      = ["source".data, "dest".data]
    ∧ "destination".data ∉
        (splitOnChar '\n' (rcloneConfContent cfgGood).data).filterMap
          headerName := by
  constructor
  · decide
  · decide

set_option maxHeartbeats 1000000 in
/-- C3 as amended: for every configuration whose spliced fields contain no
newline, the rendered credential file consists of exactly the sixteen lines
of confSplit — two sections, named "source" and "dest" (not "destination"),
each holding type = s3, provider = Other, the remote's access key, secret
key and endpoint, and acl = private — and the file is written with
permission bits 0600 (= 384). -/
theorem c3_credential_file (c : Config)
    (h1 : '\n' ∉ c.SourceAccessKey.data) (h2 : '\n' ∉ c.SourceSecretKey.data)
    (h3 : '\n' ∉ c.SourceEndpoint.data) (h4 : '\n' ∉ c.DestAccessKey.data)
    (h5 : '\n' ∉ c.DestSecretKey.data) (h6 : '\n' ∉ c.DestEndpoint.data) :
    splitOnChar '\n' (rcloneConfContent c).data = confSplit c
    ∧ (confSplit c).filterMap headerName = ["source".data, "dest".data]
    ∧ (∀ w : World, w.mkdirErr = none → w.writeErr = none →
        (createRcloneConfig w c).2
          = [Event.dirCreated configDir,
             Event.fileWritten configFilePath (rcloneConfContent c) 384]) := by
  refine ⟨?_, ?_, ?_⟩
  · rw [rcloneConfContent_data]
    apply splitOnChar_intercalate
    · simp [confSplit]
    · intro l hl
      simp only [confSplit, List.mem_cons, List.not_mem_nil, or_false] at hl
      rcases hl with rfl | rfl | rfl | rfl | rfl | rfl | rfl | rfl | rfl
        | rfl | rfl | rfl | rfl | rfl | rfl | rfl <;>
        first
          | decide
          | simp [List.mem_append, h1, h2, h3, h4, h5, h6,
              show ('\n' ∉ "access_key_id = ".data) from by decide,
              show ('\n' ∉ "secret_access_key = ".data) from by decide,
              show ('\n' ∉ "endpoint = ".data) from by decide]
  · have ha : ∀ k : String,
        headerName ("access_key_id = ".data ++ k.data) = none := by
      intro k; simp [headerName]
    have hsk : ∀ k : String,
        headerName ("secret_access_key = ".data ++ k.data) = none := by
      intro k; simp [headerName]
    have he : ∀ k : String,
        headerName ("endpoint = ".data ++ k.data) = none := by
      intro k; simp [headerName]
    have hsrc : headerName "[source]".data = some "source".data := by decide
    have hd0 : headerName "[dest]".data = some "dest".data := by decide
    have ht : headerName "type = s3".data = none := by decide
    have hpr : headerName "provider = Other".data = none := by decide
    have hacl : headerName "acl = private".data = none := by decide
    have hnil : headerName ([] : List Char) = none := by decide
    show List.filterMap headerName (confSplit c) = _
    simp only [confSplit]
    rw [List.filterMap_cons_some hsrc, List.filterMap_cons_none ht,
      List.filterMap_cons_none hpr,
      List.filterMap_cons_none (ha c.SourceAccessKey),
      List.filterMap_cons_none (hsk c.SourceSecretKey),
      List.filterMap_cons_none (he c.SourceEndpoint),
      List.filterMap_cons_none hacl, List.filterMap_cons_none hnil,
      List.filterMap_cons_some hd0, List.filterMap_cons_none ht,
      List.filterMap_cons_none hpr,
      List.filterMap_cons_none (ha c.DestAccessKey),
      List.filterMap_cons_none (hsk c.DestSecretKey),
      List.filterMap_cons_none (he c.DestEndpoint),
      List.filterMap_cons_none hacl, List.filterMap_cons_none hnil,
      List.filterMap_nil]
  · intro w hmk hwr
    obtain ⟨mke, we, che, dur⟩ := w
    cases hmk
    cases hwr
    simp [createRcloneConfig]

/-- Witness for C3 at a concrete configuration (fields without newlines):
the file splits into the expected sixteen lines, the section names are
source and dest, and the write event carries permission bits 384 = 0600. -/
theorem c3_credential_file_witness :
    splitOnChar '\n' (rcloneConfContent cfgGood).data = confSplit cfgGood
    ∧ (confSplit cfgGood).filterMap headerName
        = ["source".data, "dest".data]
    ∧ (∀ w : World, w.mkdirErr = none → w.writeErr = none →
        (createRcloneConfig w cfgGood).2
          = [Event.dirCreated configDir,
             Event.fileWritten configFilePath (rcloneConfContent cfgGood)
               384]) :=
  c3_credential_file cfgGood (by decide) (by decide) (by decide) (by decide)
    (by decide) (by decide)

end NauS3Sync
